import Mathlib

/-!
Shallow embedding of `src/mavfast_remote_api.py` (MavFast Remote Brighton Best
API).  The embedded fragment covers the mock pricing/freight aggregation
(`generate_mock_results`), the request-processing operation
(`process_brighton_automation`, together with the core workflow
`run_brighton_workflow`), and the HTTP trigger handler
(`trigger_brighton_automation`).

Python floating-point arithmetic is modelled by exact rational arithmetic
(`ℚ`); the numeric literals of the source (`0.5529`, `20.0`, `100`) are
represented by the corresponding rationals.  External effects (the Selenium
WebDriver, the wall clock, logging, Google Sheets) are modelled by explicit
parameters and by a trace of driver-lifecycle events.
-/

namespace MavFast

/-- A requested part, as found in `quote_data['parts_requested']`:
a `part_number` string and a `quantity`. -/
structure Part where
  part_number : String
  quantity : Nat
deriving DecidableEq

/-- One entry of the `pricing_data` list built by `generate_mock_results`. -/
structure PricingEntry where
  part_number : String
  quantity : Nat
  unit_price : ℚ
  total_price : ℚ
  description : String
  availability : String
  warehouse_location : String
  is_dallas_stock : Bool
deriving DecidableEq

/-- The successful result dictionary returned by `generate_mock_results`. -/
structure QuoteResult where
  success : Bool
  quote_id : String
  parts_processed : Nat
  pricing_data : List PricingEntry
  total_material_cost : ℚ
  total_freight : ℚ
  total_quote_value : ℚ
  availability_rate : ℚ
  dallas_items : Nat
  dallas_percentage : ℚ
deriving DecidableEq

/-- The mock unit price used for every part: `unit_price = 0.5529`. -/
def mock_unit_price : ℚ := 5529 / 10000

/-- The `pricing_data` entry built for one part in the loop of
`generate_mock_results` (lines 240-255 of the source). -/
def mock_entry (part : Part) : PricingEntry :=
  { part_number := part.part_number
    quantity := part.quantity
    unit_price := mock_unit_price
    total_price := (part.quantity : ℚ) * mock_unit_price
    description := "Mock description for " ++ part.part_number
    availability := "In Stock"
    warehouse_location := "DALLAS"
    is_dallas_stock := true }

/-- The freight contribution of one `pricing_data` item:
`20.0 if not item['is_dallas_stock'] else 0.0` (line 258). -/
def freight_charge (e : PricingEntry) : ℚ :=
  if e.is_dallas_stock then 0 else 20

/-- `generate_mock_results(parts, quote_id)` (lines 234-278 of the source):
builds one pricing entry per part, sums material cost and freight, counts
Dallas items, and assembles the result dictionary.  The rational division in
`dallas_percentage` is total, so this function only matches the source on
non-empty part lists; the `ZeroDivisionError` raised at line 271 for an
empty list is modelled by `generate_mock_results_checked` below. -/
def generate_mock_results (parts : List Part) (quote_id : String) : QuoteResult :=
  let pricing_data := parts.map mock_entry
  let total_material_cost := (pricing_data.map (fun e => e.total_price)).sum
  let total_freight := (pricing_data.map freight_charge).sum
  let dallas_items := (pricing_data.filter (fun e => e.is_dallas_stock)).length
  { success := true
    quote_id := quote_id
    parts_processed := parts.length
    pricing_data := pricing_data
    total_material_cost := total_material_cost
    total_freight := total_freight
    total_quote_value := total_material_cost + total_freight
    availability_rate := 100
    dallas_items := dallas_items
    dallas_percentage := ((dallas_items : ℚ) / (parts.length : ℚ)) * 100 }

/-- `generate_mock_results` with its error path: on the empty parts list the
source raises `ZeroDivisionError` at line 271 (`dallas_items / len(parts)`
with `len(parts) = 0`) and returns no result, modelled by `none`; on a
non-empty list the division is by a non-zero denominator, where the total
rational division of `generate_mock_results` agrees with Python, and the
result dictionary is returned. -/
def generate_mock_results_checked (parts : List Part) (quote_id : String) :
    Option QuoteResult :=
  if parts.isEmpty then none
  else some (generate_mock_results parts quote_id)

/-- The `quote_data` dictionary: `quote_id` is read with `.get` (may be
missing), and a missing or empty `parts_requested` is modelled by the empty
list (both are falsy in `quote_data.get('parts_requested')`). -/
structure QuoteData where
  quote_id : Option String
  parts_requested : List Part
deriving DecidableEq

/-- Outcome of `process_brighton_automation`: either the error dictionary
`{'success': False, 'error': ..., 'quote_id': ...}` or a successful
`QuoteResult`. -/
inductive ProcessResult where
  | failure (error : String) (quote_id : String)
  | ok (result : QuoteResult)
deriving DecidableEq

/-- Lifecycle events of the browser-driver resource: `acquire` is a
successful `setup_chrome_driver`, `use` is the driver access inside
`run_brighton_workflow` (`self.driver.get(...)`), `release` is
`self.driver.quit()` in the `finally` block. -/
inductive DriverEvent where
  | acquire
  | use
  | release
deriving DecidableEq

/-- `run_brighton_workflow(quote_data)` (lines 202-232): reads
`quote_data['quote_id']` (a `KeyError` when missing escapes before any
driver use), then drives the browser; an exception from the driver step is
modelled by the `workflow_err` parameter and re-raised with the
`Brighton Best workflow failed:` prefix; otherwise the mock results are
returned.  The first component is the trace of driver uses. -/
def run_brighton_workflow (qd : QuoteData) (workflow_err : Option String) :
    List DriverEvent × Except String QuoteResult :=
  match qd.quote_id with
  | none => ([], Except.error "'quote_id'")
  | some qid =>
    match workflow_err with
    | some e => ([DriverEvent.use], Except.error ("Brighton Best workflow failed: " ++ e))
    | none => ([DriverEvent.use], Except.ok (generate_mock_results qd.parts_requested qid))

/-- `process_brighton_automation(quote_data)` (lines 139-200): validates the
part list, acquires the Chrome driver (`driver_ok` models whether
`setup_chrome_driver` succeeds), runs the workflow with every exception
caught and turned into the error dictionary, and in the `finally` block
releases the driver whenever one was acquired.  Returns the trace of
driver events together with the result. -/
def process_brighton_automation (qd : QuoteData) (driver_ok : Bool)
    (workflow_err : Option String) : List DriverEvent × ProcessResult :=
  let quote_id := qd.quote_id.getD "UNKNOWN"
  if qd.parts_requested.isEmpty then
    ([], ProcessResult.failure "No parts provided for processing" quote_id)
  else if driver_ok = false then
    ([], ProcessResult.failure "Failed to initialize Chrome WebDriver" quote_id)
  else
    match run_brighton_workflow qd workflow_err with
    | (wtrace, Except.error e) =>
        (DriverEvent.acquire :: wtrace ++ [DriverEvent.release],
         ProcessResult.failure ("Brighton Best automation failed: " ++ e) quote_id)
    | (wtrace, Except.ok r) =>
        (DriverEvent.acquire :: wtrace ++ [DriverEvent.release],
         ProcessResult.ok r)

/-- The `success` flag of the dictionary a `ProcessResult` stands for. -/
def ProcessResult.success_flag : ProcessResult → Bool
  | ProcessResult.failure _ _ => false
  | ProcessResult.ok r => r.success

/-- Body of the JSON response of the trigger endpoint: either one of the
inline error objects of `trigger_brighton_automation`, or the result of
`process_brighton_automation`. -/
inductive TriggerBody where
  | errBody (error : String)
  | resultBody (r : ProcessResult)
deriving DecidableEq

/-- The `success` field of a trigger response body. -/
def TriggerBody.success : TriggerBody → Bool
  | TriggerBody.errBody _ => false
  | TriggerBody.resultBody r => r.success_flag

/-- The `error` message carried by a trigger response body, when any. -/
def TriggerBody.error_msg : TriggerBody → Option String
  | TriggerBody.errBody e => some e
  | TriggerBody.resultBody (ProcessResult.failure e _) => some e
  | TriggerBody.resultBody (ProcessResult.ok _) => none

/-- `trigger_brighton_automation` (lines 312-342): the request is modelled by
`req : Option (Option QuoteData)` — `none` when `request.get_json()` yields
no JSON, `some none` when `quote_data` is missing or empty, `some (some qd)`
otherwise.  Returns the JSON body and the HTTP status code:
400 on a malformed request, otherwise `200 if result.get('success') else 500`. -/
def trigger_brighton_automation (req : Option (Option QuoteData))
    (driver_ok : Bool) (workflow_err : Option String) : TriggerBody × Nat :=
  match req with
  | none => (TriggerBody.errBody "No JSON data provided", 400)
  | some none => (TriggerBody.errBody "No quote_data provided", 400)
  | some (some qd) =>
    let result := (process_brighton_automation qd driver_ok workflow_err).2
    (TriggerBody.resultBody result, if result.success_flag then 200 else 500)

/-! ## Helper lemmas -/

/-- Summing the freight charges of a list equals 20 times the number of
non-Dallas entries. -/
lemma sum_freight_charge (l : List PricingEntry) :
    (l.map freight_charge).sum
      = 20 * ((l.filter (fun e => !e.is_dallas_stock)).length : ℚ) := by
  induction l with
  | nil => simp
  | cons e t ih =>
    by_cases h : e.is_dallas_stock
    · simp [freight_charge, h, ih]
    · simp only [List.map_cons, List.sum_cons, freight_charge, h, if_neg, Bool.not_false,
        List.filter_cons_of_pos, List.length_cons, ih]
      push_cast
      ring

/-- Every mock pricing entry carries zero freight, so the freight sum over
mock entries vanishes. -/
lemma sum_freight_mock (parts : List Part) :
    ((parts.map mock_entry).map freight_charge).sum = 0 := by
  induction parts with
  | nil => rfl
  | cons p ps ih =>
    simp only [List.map_cons, List.sum_cons, ih, add_zero]
    rfl

/-- Every mock pricing entry is Dallas stock, so the Dallas filter keeps the
whole list. -/
lemma filter_dallas_mock (parts : List Part) :
    (parts.map mock_entry).filter (fun e => e.is_dallas_stock)
      = parts.map mock_entry := by
  induction parts with
  | nil => rfl
  | cons p ps ih => simp [mock_entry, ih]

/-- Whenever `process_brighton_automation` returns a computed quote result,
that result's `success` flag is `true`. -/
lemma process_ok_success (qd : QuoteData) (d : Bool) (w : Option String)
    (r : QuoteResult)
    (h : (process_brighton_automation qd d w).2 = ProcessResult.ok r) :
    r.success = true := by
  rcases qd with ⟨qid, parts⟩
  rcases parts with _ | ⟨p, ps⟩ <;> rcases d <;> rcases qid with _ | q <;>
    rcases w with _ | e <;>
    simp [process_brighton_automation, run_brighton_workflow] at h
  subst h
  rfl

/-! ## Claim theorems -/

/-- C1: for every non-empty parts list, the returned `total_quote_value`
equals `total_material_cost + total_freight`. -/
theorem total_quote_value_eq_cost_add_freight (parts : List Part)
    (quote_id : String) (_h : parts ≠ []) :
    (generate_mock_results parts quote_id).total_quote_value
      = (generate_mock_results parts quote_id).total_material_cost
        + (generate_mock_results parts quote_id).total_freight := rfl

theorem total_quote_value_eq_cost_add_freight_witness :
    (generate_mock_results [⟨"455432", 225⟩] "Q1").total_quote_value
      = (generate_mock_results [⟨"455432", 225⟩] "Q1").total_material_cost
        + (generate_mock_results [⟨"455432", 225⟩] "Q1").total_freight :=
  total_quote_value_eq_cost_add_freight [⟨"455432", 225⟩] "Q1"
    (List.cons_ne_nil _ _)

/-- C2: for every non-empty parts list, `total_material_cost` is the sum of
the `total_price` fields of the returned `pricing_data`, and each entry's
`total_price` is its quantity times its unit price. -/
theorem total_material_cost_eq_sum (parts : List Part) (quote_id : String)
    (_h : parts ≠ []) :
    (generate_mock_results parts quote_id).total_material_cost
      = ((generate_mock_results parts quote_id).pricing_data.map
          (fun e => e.total_price)).sum
    ∧ ∀ e ∈ (generate_mock_results parts quote_id).pricing_data,
        e.total_price = (e.quantity : ℚ) * e.unit_price := by
  refine ⟨rfl, ?_⟩
  intro e he
  simp only [generate_mock_results, List.mem_map] at he
  obtain ⟨p, _, rfl⟩ := he
  rfl

theorem total_material_cost_eq_sum_witness :
    (generate_mock_results [⟨"B", 3⟩] "Q2").total_material_cost
      = ((generate_mock_results [⟨"B", 3⟩] "Q2").pricing_data.map
          (fun e => e.total_price)).sum
    ∧ (mock_entry ⟨"B", 3⟩).total_price
      = ((mock_entry ⟨"B", 3⟩).quantity : ℚ) * (mock_entry ⟨"B", 3⟩).unit_price :=
  ⟨(total_material_cost_eq_sum [⟨"B", 3⟩] "Q2" (List.cons_ne_nil _ _)).1,
   (total_material_cost_eq_sum [⟨"B", 3⟩] "Q2" (List.cons_ne_nil _ _)).2
     (mock_entry ⟨"B", 3⟩) (by simp [generate_mock_results])⟩

/-- C3: for every non-empty parts list, `total_freight` equals 20 times the
number of `pricing_data` entries whose `is_dallas_stock` flag is false, and
every Dallas-stock entry contributes zero freight. -/
theorem total_freight_formula (parts : List Part) (quote_id : String)
    (_h : parts ≠ []) :
    (generate_mock_results parts quote_id).total_freight
      = 20 * (((generate_mock_results parts quote_id).pricing_data.filter
          (fun e => !e.is_dallas_stock)).length : ℚ)
    ∧ ∀ e ∈ (generate_mock_results parts quote_id).pricing_data,
        e.is_dallas_stock = true → freight_charge e = 0 := by
  constructor
  · exact sum_freight_charge (parts.map mock_entry)
  · intro e _ hd
    simp [freight_charge, hd]

theorem total_freight_formula_witness :
    (generate_mock_results [⟨"C", 4⟩] "Q3").total_freight
      = 20 * (((generate_mock_results [⟨"C", 4⟩] "Q3").pricing_data.filter
          (fun e => !e.is_dallas_stock)).length : ℚ)
    ∧ freight_charge (mock_entry ⟨"C", 4⟩) = 0 :=
  ⟨(total_freight_formula [⟨"C", 4⟩] "Q3" (List.cons_ne_nil _ _)).1,
   (total_freight_formula [⟨"C", 4⟩] "Q3" (List.cons_ne_nil _ _)).2
     (mock_entry ⟨"C", 4⟩) (by simp [generate_mock_results]) rfl⟩

/-- C4: for every non-empty parts list, `dallas_percentage` equals
`100 * dallas_items / parts_processed`. -/
theorem dallas_percentage_formula (parts : List Part) (quote_id : String)
    (_h : parts ≠ []) :
    (generate_mock_results parts quote_id).dallas_percentage
      = 100 * ((generate_mock_results parts quote_id).dallas_items : ℚ)
        / ((generate_mock_results parts quote_id).parts_processed : ℚ) := by
  simp only [generate_mock_results]
  ring

theorem dallas_percentage_formula_witness :
    (generate_mock_results [⟨"D", 5⟩] "Q4").dallas_percentage
      = 100 * ((generate_mock_results [⟨"D", 5⟩] "Q4").dallas_items : ℚ)
        / ((generate_mock_results [⟨"D", 5⟩] "Q4").parts_processed : ℚ) :=
  dallas_percentage_formula [⟨"D", 5⟩] "Q4" (List.cons_ne_nil _ _)

/-- C5: when `parts_requested` is empty (a missing list is modelled by the
empty list), `process_brighton_automation` returns the failure response with
the error message and the quote identifier, never a computed quote result. -/
theorem empty_parts_failure (qd : QuoteData) (driver_ok : Bool)
    (workflow_err : Option String) (h : qd.parts_requested = []) :
    (process_brighton_automation qd driver_ok workflow_err).2
      = ProcessResult.failure "No parts provided for processing"
          (qd.quote_id.getD "UNKNOWN") := by
  simp [process_brighton_automation, h]

theorem empty_parts_failure_witness :
    (process_brighton_automation ⟨some "Q5", []⟩ true none).2
      = ProcessResult.failure "No parts provided for processing" "Q5" :=
  empty_parts_failure ⟨some "Q5", []⟩ true none rfl

/-- C6: for the single part of quantity 225, at the mock unit price 0.5529
the computation returns `total_material_cost = 124.4025`,
`total_freight = 0`, and `total_quote_value = 124.4025`. -/
theorem test_part_quote_values :
    mock_unit_price = (0.5529 : ℚ)
    ∧ (generate_mock_results [⟨"455432", 225⟩]
        "MF-TEST-20250831-123456").total_material_cost = (124.4025 : ℚ)
    ∧ (generate_mock_results [⟨"455432", 225⟩]
        "MF-TEST-20250831-123456").total_freight = 0
    ∧ (generate_mock_results [⟨"455432", 225⟩]
        "MF-TEST-20250831-123456").total_quote_value = (124.4025 : ℚ) := by
  refine ⟨?_, ?_, ?_, ?_⟩ <;>
    norm_num [generate_mock_results, mock_entry, mock_unit_price, freight_charge]

/-- C7: the trigger endpoint returns status 200 exactly when the body's
success flag is true, carries an error message on every unsuccessful body,
answers 400 on a malformed request (no JSON body, or missing/empty
`quote_data`), and 500 when processing fails. -/
theorem trigger_status_contract (req : Option (Option QuoteData))
    (driver_ok : Bool) (workflow_err : Option String) :
    ((trigger_brighton_automation req driver_ok workflow_err).2 = 200
      ↔ (trigger_brighton_automation req driver_ok workflow_err).1.success = true)
    ∧ ((trigger_brighton_automation req driver_ok workflow_err).1.success = false
      → ∃ e, (trigger_brighton_automation req driver_ok workflow_err).1.error_msg
          = some e)
    ∧ (req = none ∨ req = some none
      → (trigger_brighton_automation req driver_ok workflow_err).2 = 400)
    ∧ (∀ qd, req = some (some qd)
      → (trigger_brighton_automation req driver_ok workflow_err).1.success = false
      → (trigger_brighton_automation req driver_ok workflow_err).2 = 500) := by
  rcases req with _ | (_ | qd)
  · simp [trigger_brighton_automation, TriggerBody.success, TriggerBody.error_msg]
  · simp [trigger_brighton_automation, TriggerBody.success, TriggerBody.error_msg]
  · rcases hr : (process_brighton_automation qd driver_ok workflow_err).2 with ⟨e, q⟩ | r
    · simp [trigger_brighton_automation, hr, TriggerBody.success,
        TriggerBody.error_msg, ProcessResult.success_flag]
    · have hs := process_ok_success qd driver_ok workflow_err r hr
      simp [trigger_brighton_automation, hr, TriggerBody.success,
        TriggerBody.error_msg, ProcessResult.success_flag, hs]

theorem trigger_status_contract_witness :
    (trigger_brighton_automation (some (some ⟨some "Q6", [⟨"A", 2⟩]⟩)) false none).2
        = 500
    ∧ (trigger_brighton_automation none true none).2 = 400 :=
  ⟨(trigger_status_contract (some (some ⟨some "Q6", [⟨"A", 2⟩]⟩)) false none).2.2.2
      ⟨some "Q6", [⟨"A", 2⟩]⟩ rfl (by decide),
   (trigger_status_contract none true none).2.2.1 (Or.inl rfl)⟩

/-- C8: in every execution of `process_brighton_automation`, any driver use
is preceded by an acquisition (the acquire opens the trace), and whenever the
driver was acquired the trace ends with its release, on success and on every
failure path alike. -/
theorem driver_acquire_release (qd : QuoteData) (driver_ok : Bool)
    (workflow_err : Option String) :
    (DriverEvent.use ∈ (process_brighton_automation qd driver_ok workflow_err).1
      → (process_brighton_automation qd driver_ok workflow_err).1.head?
          = some DriverEvent.acquire)
    ∧ (DriverEvent.acquire ∈ (process_brighton_automation qd driver_ok workflow_err).1
      → (process_brighton_automation qd driver_ok workflow_err).1.getLast?
          = some DriverEvent.release) := by
  rcases qd with ⟨qid, parts⟩
  rcases parts with _ | ⟨p, ps⟩ <;> rcases driver_ok <;> rcases qid with _ | q <;>
    rcases workflow_err with _ | e <;>
    simp [process_brighton_automation, run_brighton_workflow, List.getLast?]

theorem driver_acquire_release_witness :
    (process_brighton_automation ⟨some "Q7", [⟨"A", 2⟩]⟩ true none).1.head?
        = some DriverEvent.acquire
    ∧ (process_brighton_automation ⟨some "Q7", [⟨"A", 2⟩]⟩ true none).1.getLast?
        = some DriverEvent.release :=
  ⟨(driver_acquire_release ⟨some "Q7", [⟨"A", 2⟩]⟩ true none).1 (by decide),
   (driver_acquire_release ⟨some "Q7", [⟨"A", 2⟩]⟩ true none).2 (by decide)⟩

/-- C9: for every non-empty parts list, every `pricing_data` entry is Dallas
stock located in warehouse `DALLAS`; consequently `total_freight = 0`,
`dallas_items = parts_processed`, `dallas_percentage = 100`, and
`availability_rate = 100`. -/
theorem all_dallas_invariant (parts : List Part) (quote_id : String)
    (h : parts ≠ []) :
    (∀ e ∈ (generate_mock_results parts quote_id).pricing_data,
        e.is_dallas_stock = true ∧ e.warehouse_location = "DALLAS")
    ∧ (generate_mock_results parts quote_id).total_freight = 0
    ∧ (generate_mock_results parts quote_id).dallas_items
        = (generate_mock_results parts quote_id).parts_processed
    ∧ (generate_mock_results parts quote_id).dallas_percentage = 100
    ∧ (generate_mock_results parts quote_id).availability_rate = 100 := by
  refine ⟨?_, sum_freight_mock parts, ?_, ?_, rfl⟩
  · intro e he
    simp only [generate_mock_results, List.mem_map] at he
    obtain ⟨p, _, rfl⟩ := he
    exact ⟨rfl, rfl⟩
  · show ((parts.map mock_entry).filter (fun e => e.is_dallas_stock)).length
        = parts.length
    rw [filter_dallas_mock, List.length_map]
  · show ((((parts.map mock_entry).filter
        (fun e => e.is_dallas_stock)).length : ℚ) / (parts.length : ℚ)) * 100
        = 100
    rw [filter_dallas_mock, List.length_map, div_self, one_mul]
    exact_mod_cast fun hl => h (List.length_eq_zero.mp hl)

theorem all_dallas_invariant_witness :
    ((mock_entry ⟨"E", 7⟩).is_dallas_stock = true
      ∧ (mock_entry ⟨"E", 7⟩).warehouse_location = "DALLAS")
    ∧ (generate_mock_results [⟨"E", 7⟩] "Q8").total_freight = 0
    ∧ (generate_mock_results [⟨"E", 7⟩] "Q8").dallas_percentage = 100 :=
  ⟨(all_dallas_invariant [⟨"E", 7⟩] "Q8" (List.cons_ne_nil _ _)).1
      (mock_entry ⟨"E", 7⟩) (by simp [generate_mock_results]),
   (all_dallas_invariant [⟨"E", 7⟩] "Q8" (List.cons_ne_nil _ _)).2.1,
   (all_dallas_invariant [⟨"E", 7⟩] "Q8" (List.cons_ne_nil _ _)).2.2.2.1⟩

/-- C10 counterexample: on the empty input parts list the quote computation
raises `ZeroDivisionError` at line 271 and returns no result at all, so the
claim's quantification over every input list — which presupposes a result
with `pricing_data` and `parts_processed` — fails at `[]`. -/
theorem pricing_data_empty_list_no_result :
    generate_mock_results_checked [] "Q9" = none := rfl

/-- C10 (amended to non-empty lists): for every non-empty input parts list
the computation does return a result; its `pricing_data` has the same length
as the input, `parts_processed` equals that length, and at every index the
entry's `part_number` and `quantity` match the input part's. -/
theorem pricing_data_preserves_parts (parts : List Part) (quote_id : String)
    (h : parts ≠ []) :
    generate_mock_results_checked parts quote_id
        = some (generate_mock_results parts quote_id)
    ∧ (generate_mock_results parts quote_id).pricing_data.length = parts.length
    ∧ (generate_mock_results parts quote_id).parts_processed = parts.length
    ∧ ∀ i : Nat,
        ((generate_mock_results parts quote_id).pricing_data[i]?).map
            (fun e => (e.part_number, e.quantity))
          = (parts[i]?).map (fun p => (p.part_number, p.quantity)) := by
  refine ⟨?_, List.length_map _ _, rfl, ?_⟩
  · rcases parts with _ | ⟨p, ps⟩
    · exact absurd rfl h
    · rfl
  · intro i
    show ((parts.map mock_entry)[i]?).map (fun e => (e.part_number, e.quantity))
        = (parts[i]?).map (fun p => (p.part_number, p.quantity))
    rw [List.getElem?_map]
    rcases parts[i]? with _ | p <;> rfl

theorem pricing_data_preserves_parts_witness :
    generate_mock_results_checked [⟨"F", 6⟩] "Q10"
        = some (generate_mock_results [⟨"F", 6⟩] "Q10")
    ∧ (generate_mock_results [⟨"F", 6⟩] "Q10").pricing_data.length = 1
    ∧ (generate_mock_results [⟨"F", 6⟩] "Q10").parts_processed = 1
    ∧ ((generate_mock_results [⟨"F", 6⟩] "Q10").pricing_data[0]?).map
        (fun e => (e.part_number, e.quantity)) = some ("F", 6) :=
  ⟨(pricing_data_preserves_parts [⟨"F", 6⟩] "Q10" (List.cons_ne_nil _ _)).1,
   (pricing_data_preserves_parts [⟨"F", 6⟩] "Q10" (List.cons_ne_nil _ _)).2.1,
   (pricing_data_preserves_parts [⟨"F", 6⟩] "Q10" (List.cons_ne_nil _ _)).2.2.1,
   (pricing_data_preserves_parts [⟨"F", 6⟩] "Q10" (List.cons_ne_nil _ _)).2.2.2 0⟩

end MavFast
